import Mathlib

/-!
A shallow embedding of the geocache configuration compiler
(src/mapcache/src/configuration.c) together with theorems settling the
frozen claims about it.

The XML tree produced by libxml2 is modelled as an immutable tree of
nodes carrying a tag name, precomputed text content (xmlNodeGetContent),
an attribute list and a child list.  The ambient `geocache_context` error
slot is modelled as an explicit `PCtx` state threaded through every
parser; `ctx->set_error` installs the first error and later calls are
no-ops, matching the "single shared first-error slot" discipline.
Registries (apr hash tables keyed by strings) are association lists with
insert-or-overwrite semantics.
-/

/-- An XML attribute: its name and the string value of its child text
node, `none` when the attribute has no children (libxml2's walk in
`extractNameAndTypeAttributes` stops at such an attribute). -/
structure XmlAttr where
  name : String
  children : Option String
deriving DecidableEq, Repr

/-- An XML node: element flag (`type == XML_ELEMENT_NODE`), tag name,
text content as returned by xmlNodeGetContent, attributes, children. -/
inductive XmlNode : Type where
  | mk : Bool → String → String → List XmlAttr → List XmlNode → XmlNode
deriving Repr

def XmlNode.isElement : XmlNode → Bool
  | .mk b _ _ _ _ => b

def XmlNode.name : XmlNode → String
  | .mk _ n _ _ _ => n

def XmlNode.content : XmlNode → String
  | .mk _ _ c _ _ => c

def XmlNode.attrs : XmlNode → List XmlAttr
  | .mk _ _ _ a _ => a

def XmlNode.children : XmlNode → List XmlNode
  | .mk _ _ _ _ k => k

/-- The two error kinds of the core: GEOCACHE_PARSE_ERROR and
GEOCACHE_DISK_ERROR. -/
inductive ErrKind where
  | parseError
  | diskError
deriving DecidableEq, Repr

structure Err where
  kind : ErrKind
  msg : String
deriving DecidableEq, Repr

/-- The geocache_context, reduced to the ambient error slot threaded
through the whole call chain. -/
structure PCtx where
  error : Option Err
deriving DecidableEq, Repr

/-- Modelled from the spec: `ctx->set_error` fills the single shared
"first error" slot; once an error is recorded, later reports are kept
out (every caller checks the slot immediately, so only the first error
is ever observed). -/
def setError (ctx : PCtx) (k : ErrKind) (m : String) : PCtx :=
  if ctx.error.isSome then ctx else { error := some ⟨k, m⟩ }

/-- PNG compression effort (GEOCACHE_COMPRESSION_*). -/
inductive Compression where
  | default
  | fast
  | best
deriving DecidableEq, Repr

/-- Image format variants: plain PNG, quantized PNG, JPEG. -/
inductive ImageFormat where
  | png (name : String) (compression : Compression)
  | pngQ (name : String) (compression : Compression) (colors : Int)
  | jpeg (name : String) (quality : Int)
deriving DecidableEq, Repr

/-- Modelled from the spec: geocache_imageio_create_png_format
(imageio.c is not in src/) records the name and compression effort. -/
def geocache_imageio_create_png_format (name : String) (c : Compression) : ImageFormat :=
  .png name c

/-- Modelled from the spec: geocache_imageio_create_png_q_format records
the name, compression effort and color count. -/
def geocache_imageio_create_png_q_format (name : String) (c : Compression) (colors : Int) : ImageFormat :=
  .pngQ name c colors

/-- Modelled from the spec: geocache_imageio_create_jpeg_format records
the name and quality. -/
def geocache_imageio_create_jpeg_format (name : String) (q : Int) : ImageFormat :=
  .jpeg name q

/-- A source entity.  The wms variant's own configuration is out of
scope; only the fields touched by configuration.c are kept. -/
structure Source where
  name : String
  srs : Option String
deriving DecidableEq, Repr

/-- A cache entity (disk variant's storage parameters are out of
scope). -/
structure Cache where
  name : String
deriving DecidableEq, Repr

/-- A tileset entity, with the fields configuration.c populates. -/
structure Tileset where
  name : String
  cache : Option Cache
  source : Option Source
  format : Option ImageFormat
  srs : Option String
  tile_sx : Int
  tile_sy : Int
  extent0 : ℚ
  extent1 : ℚ
  extent2 : ℚ
  extent3 : ℚ
  resolutions : List ℚ
  levels : Int
  metasize_x : Int
  metasize_y : Int
  metabuffer : Int
  expires : Int
deriving DecidableEq, Repr

/-- Modelled from the spec: geocache_tileset_create (tileset.c is not in
src/) returns a zero-initialized tileset whose metatile dimensions
default to 1x1 and metabuffer to 0; references and the format are
unset. -/
def geocache_tileset_create : Tileset :=
  { name := "", cache := none, source := none, format := none, srs := none,
    tile_sx := 0, tile_sy := 0,
    extent0 := 0, extent1 := 0, extent2 := 0, extent3 := 0,
    resolutions := [], levels := 0,
    metasize_x := 1, metasize_y := 1, metabuffer := 0, expires := 0 }

/-- apr_hash_get: lookup by string key. -/
def hashGet {α : Type} (h : List (String × α)) (k : String) : Option α :=
  match h with
  | [] => none
  | p :: rest => if p.1 = k then some p.2 else hashGet rest k

/-- apr_hash_set: insert-or-overwrite by string key. -/
def hashSet {α : Type} (h : List (String × α)) (k : String) (v : α) : List (String × α) :=
  match h with
  | [] => [(k, v)]
  | p :: rest => if p.1 = k then (k, v) :: rest else p :: hashSet rest k v

/-- The compiled configuration: the four name-keyed registries plus the
global settings.  A service entry of the `services` array is enabled
when its pointer is non-null; the two supported services are booleans
here. -/
structure Cfg where
  sources : List (String × Source)
  caches : List (String × Cache)
  tilesets : List (String × Tileset)
  image_formats : List (String × ImageFormat)
  merge_format : Option ImageFormat
  lockdir : String
  services_wms : Bool
  services_tms : Bool
deriving DecidableEq, Repr

def geocache_configuration_get_source (cfg : Cfg) (key : String) : Option Source :=
  hashGet cfg.sources key

def geocache_configuration_get_cache (cfg : Cfg) (key : String) : Option Cache :=
  hashGet cfg.caches key

def geocache_configuration_get_tileset (cfg : Cfg) (key : String) : Option Tileset :=
  hashGet cfg.tilesets key

def geocache_configuration_get_image_format (cfg : Cfg) (key : String) : Option ImageFormat :=
  hashGet cfg.image_formats key

def geocache_configuration_add_source (cfg : Cfg) (s : Source) (key : String) : Cfg :=
  { cfg with sources := hashSet cfg.sources key s }

def geocache_configuration_add_cache (cfg : Cfg) (c : Cache) (key : String) : Cfg :=
  { cfg with caches := hashSet cfg.caches key c }

def geocache_configuration_add_tileset (cfg : Cfg) (t : Tileset) (key : String) : Cfg :=
  { cfg with tilesets := hashSet cfg.tilesets key t }

def geocache_configuration_add_image_format (cfg : Cfg) (f : ImageFormat) (key : String) : Cfg :=
  { cfg with image_formats := hashSet cfg.image_formats key f }

/-- geocache_configuration_create: empty registries, then the three
built-in formats PNG, PNG8, JPEG are pre-registered, the merge format
defaults to the built-in PNG, and the lock directory to
/tmp/geocache_locks. -/
def geocache_configuration_create : Cfg :=
  let cfg : Cfg :=
    { sources := [], caches := [], tilesets := [], image_formats := [],
      merge_format := none, lockdir := "/tmp/geocache_locks",
      services_wms := false, services_tms := false }
  let cfg := geocache_configuration_add_image_format cfg
    (geocache_imageio_create_png_format "PNG" .fast) "PNG"
  let cfg := geocache_configuration_add_image_format cfg
    (geocache_imageio_create_png_q_format "PNG" .fast 256) "PNG8"
  let cfg := geocache_configuration_add_image_format cfg
    (geocache_imageio_create_jpeg_format "JPEG" 95) "JPEG"
  { cfg with merge_format := geocache_configuration_get_image_format cfg "PNG" }

/-- extractNameAndTypeAttributes walk: scans the attribute list, keeping
the last value seen for `name` and `type`; the C loop stops at the first
attribute with no children. -/
def extractNTAux : List XmlAttr → Option String → Option String → Option String × Option String
  | [], n, t => (n, t)
  | a :: rest, n, t =>
    match a.children with
    | none => (n, t)
    | some v =>
      extractNTAux rest (if a.name = "name" then some v else n)
        (if a.name = "type" then some v else t)

/-- extractNameAndTypeAttributes: returns the extracted `name` and
`type` values (none when absent). -/
def extractNameAndTypeAttributes (attrs : List XmlAttr) : Option String × Option String :=
  extractNTAux attrs none none

/-- The return status of extractNameAndTypeAttributes:
GEOCACHE_SUCCESS (true) exactly when both out-pointers are non-null. -/
def extractNTStatus (attrs : List XmlAttr) : Bool :=
  (extractNameAndTypeAttributes attrs).1.isSome &&
    (extractNameAndTypeAttributes attrs).2.isSome

/-- C character classification used by strtol: isspace. -/
def isSpaceC (c : Char) : Bool :=
  c = ' ' ∨ c = '\t' ∨ c = '\n' ∨ c = '\r' ∨ c = '\x0b' ∨ c = '\x0c'

def digitVal (c : Char) : Nat := c.toNat - '0'.toNat

def natOfDigits (l : List Char) : Nat :=
  l.foldl (fun a c => a * 10 + digitVal c) 0

/-- Optional leading sign of a C integer literal. -/
def signSplit : List Char → Int × List Char
  | '-' :: r => (-1, r)
  | '+' :: r => (1, r)
  | l => (1, l)

/-- LONG_MAX on the LP64 platforms this code targets (64-bit long). -/
def LONG_MAX : Int := 2 ^ 63 - 1

/-- LONG_MIN on LP64. -/
def LONG_MIN : Int := -(2 ^ 63)

/-- strtol's overflow behavior: a value outside the long range is
clamped to LONG_MAX / LONG_MIN. -/
def clampLong (v : Int) : Int :=
  if v > LONG_MAX then LONG_MAX else if v < LONG_MIN then LONG_MIN else v

/-- The C `(int)` cast of a long: truncation to 32 bits, i.e. reduction
modulo 2^32 into the range of a two's-complement int. -/
def intCast32 (v : Int) : Int :=
  (v + 2 ^ 31) % 2 ^ 32 - 2 ^ 31

/-- strtol(nptr, endptr, 10) on a character list: skips leading
whitespace, consumes an optional sign and a maximal run of digits, and
returns the long value (clamped to the long range on overflow) together
with the remaining characters (endptr).  When no digits are found the
value is 0 and endptr is nptr itself. -/
def strtolChars (l : List Char) : Int × List Char :=
  let l1 := l.dropWhile isSpaceC
  let p := signSplit l1
  let ds := p.2.takeWhile Char.isDigit
  let rest := p.2.dropWhile Char.isDigit
  if ds = [] then (0, l) else (clampLong (p.1 * (natOfDigits ds : Int)), rest)

/-- strtol on a string; the second component is empty exactly when the
whole string was consumed (`*endptr == 0` in the C checks). -/
def strtol (s : String) : Int × List Char :=
  strtolChars s.data

/-- Spec-side reading of "<text> fully parses as an integer": leading
whitespace, an optional sign and a non-empty digit run making up the
whole rest of the string yield that integer; anything else (including a
trailing non-numeric character) is not an integer. -/
def specFullyParsedInt (s : String) : Option Int :=
  let l1 := s.data.dropWhile isSpaceC
  let p := signSplit l1
  let ds := p.2.takeWhile Char.isDigit
  let rest := p.2.dropWhile Char.isDigit
  if ds = [] ∨ rest ≠ [] then none else some (p.1 * (natOfDigits ds : Int))

/-- A numeric token for the double lists: optional sign, a non-empty
integer digit run, optionally a decimal point and a fractional digit
run, nothing else. -/
def parseRatChars (l : List Char) : Option ℚ :=
  let p := signSplit l
  let ds := p.2.takeWhile Char.isDigit
  let r1 := p.2.dropWhile Char.isDigit
  if ds = [] then none
  else
    match r1 with
    | [] => some (mkRat (p.1 * (natOfDigits ds : Int)) 1)
    | '.' :: r2 =>
      let fs := r2.takeWhile Char.isDigit
      let r3 := r2.dropWhile Char.isDigit
      if r3 = [] then
        some (mkRat (p.1 * ((natOfDigits ds * 10 ^ fs.length + natOfDigits fs : Nat) : Int))
          (10 ^ fs.length))
      else none
    | _ => none

/-- Splits a character list on the separator character, skipping runs
of separators, accumulating the current token in reverse. -/
def splitTokensAux (sep : Char) : List Char → List Char → List (List Char)
  | [], cur => if cur = [] then [] else [cur.reverse]
  | c :: rest, cur =>
    if c = sep then
      if cur = [] then splitTokensAux sep rest []
      else cur.reverse :: splitTokensAux sep rest []
    else splitTokensAux sep rest (c :: cur)

/-- The non-empty separator-delimited tokens of a character list, in
order. -/
def splitTokens (sep : Char) (l : List Char) : List (List Char) :=
  splitTokensAux sep l []

/-- A fully-consumed integer token. -/
def parseIntTokenChars (l : List Char) : Option Int :=
  let p := strtolChars l
  if l ≠ [] ∧ p.2 = [] then some p.1 else none

def parseIntList : List (List Char) → Option (List Int)
  | [] => some []
  | tk :: rest =>
    match parseIntTokenChars tk, parseIntList rest with
    | some v, some l => some (v :: l)
    | _, _ => none

def parseRatList : List (List Char) → Option (List ℚ)
  | [] => some []
  | tk :: rest =>
    match parseRatChars tk, parseRatList rest with
    | some v, some l => some (v :: l)
    | _, _ => none

/-- Modelled from the spec: geocache_util_extract_int_list (util.c is
not in src/) splits the text on the separator, skipping empty tokens,
and parses each token as a fully-consumed integer; it fails when any
token does not fully parse, and returns the values in document order. -/
def geocache_util_extract_int_list (s : String) : Option (List Int) :=
  parseIntList (splitTokens ' ' s.data)

/-- Modelled from the spec: geocache_util_extract_double_list splits the
text on the separator, skipping empty tokens, and parses each token as a
fully-consumed real number; it fails when any token does not fully
parse, and returns the values in document order. -/
def geocache_util_extract_double_list (s : String) : Option (List ℚ) :=
  parseRatList (splitTokens ' ' s.data)

/-- parseSource.  The wms variant's configuration_parse and
configuration_check delegates (source_wms.c, not in src/) are modelled
from the spec as the variant's own two-step contract and are taken to
succeed; the `srs` child scan and all steps of configuration.c itself
are embedded faithfully. -/
def parseSource (ctx : PCtx) (node : XmlNode) (cfg : Cfg) : PCtx × Cfg :=
  if node.name ≠ "source" then
    (setError ctx .parseError ("SEVERE: found tag " ++ node.name ++ " instead of <source>"), cfg)
  else
    let nt := extractNameAndTypeAttributes node.attrs
    if nt.1 = none ∨ nt.1 = some "" then
      (setError ctx .parseError "mandatory attribute \"name\" not found in <source>", cfg)
    else if (geocache_configuration_get_source cfg (nt.1.getD "")).isSome then
      (setError ctx .parseError ("duplicate source with name \"" ++ nt.1.getD "" ++ "\""), cfg)
    else if nt.2 = none ∨ nt.2 = some "" then
      (setError ctx .parseError "mandatory attribute \"type\" not found in <source>", cfg)
    else if nt.2 = some "wms" then
      let src : Source :=
        node.children.foldl
          (fun s c =>
            if c.isElement = true ∧ c.name = "srs" then { s with srs := some c.content } else s)
          { name := nt.1.getD "", srs := none }
      (ctx, geocache_configuration_add_source cfg src (nt.1.getD ""))
    else
      (setError ctx .parseError
        ("unknown source type " ++ nt.2.getD "" ++ " for source \"" ++ nt.1.getD "" ++ "\""), cfg)

/-- parseCache.  The disk variant's configuration_parse and
configuration_check delegates (cache_disk.c, not in src/) are modelled
from the spec as succeeding. -/
def parseCache (ctx : PCtx) (node : XmlNode) (cfg : Cfg) : PCtx × Cfg :=
  if node.name ≠ "cache" then
    (setError ctx .parseError ("SEVERE: <" ++ node.name ++ "> is not a cache tag"), cfg)
  else
    let nt := extractNameAndTypeAttributes node.attrs
    if nt.1 = none ∨ nt.1 = some "" then
      (setError ctx .parseError "mandatory attribute \"name\" not found in <cache>", cfg)
    else if (geocache_configuration_get_cache cfg (nt.1.getD "")).isSome then
      (setError ctx .parseError ("duplicate cache with name \"" ++ nt.1.getD "" ++ "\""), cfg)
    else if nt.2 = none ∨ nt.2 = some "" then
      (setError ctx .parseError "mandatory attribute \"type\" not found in <cache>", cfg)
    else if nt.2 = some "disk" then
      (ctx, geocache_configuration_add_cache cfg { name := nt.1.getD "" } (nt.1.getD ""))
    else
      (setError ctx .parseError
        ("unknown cache type " ++ nt.2.getD "" ++ " for cache \"" ++ nt.1.getD "" ++ "\""), cfg)

/-- The child scan of the PNG branch of parseFormat: `compression` must
be exactly "fast" or "best", `colors` a fully-consumed strtol parse
whose int-cast value (configuration.c casts the long with `(int)`) lies
in 2..256 (selecting the quantized variant), and any other element tag
is a hard error naming the tag and the format. -/
def pngChildLoop (name : String) : List XmlNode → Int → Compression → Except Err (Int × Compression)
  | [], colors, comp => .ok (colors, comp)
  | c :: rest, colors, comp =>
    if c.isElement = false then pngChildLoop name rest colors comp
    else if c.name = "compression" then
      if c.content = "fast" then pngChildLoop name rest colors .fast
      else if c.content = "best" then pngChildLoop name rest colors .best
      else .error ⟨.parseError,
        "unknown compression type " ++ c.content ++ " for format \"" ++ name ++ "\""⟩
    else if c.name = "colors" then
      let p := strtol c.content
      if p.2 ≠ [] ∨ intCast32 p.1 < 2 ∨ intCast32 p.1 > 256 then
        .error ⟨.parseError,
          "failed to parse colors \"" ++ c.content ++ "\" for format \"" ++ name ++ "\""⟩
      else pngChildLoop name rest (intCast32 p.1) comp
    else .error ⟨.parseError, "unknown tag " ++ c.name ++ " for format \"" ++ name ++ "\""⟩

/-- The child scan of the JPEG branch of parseFormat: only `quality` is
interpreted (a fully-consumed strtol parse whose int-cast value lies in
1..100); any other element tag falls through the loop without an error
branch. -/
def jpegChildLoop (name : String) : List XmlNode → Int → Except Err Int
  | [], q => .ok q
  | c :: rest, q =>
    if c.isElement = false then jpegChildLoop name rest q
    else if c.name = "quality" then
      let p := strtol c.content
      if p.2 ≠ [] ∨ intCast32 p.1 < 1 ∨ intCast32 p.1 > 100 then
        .error ⟨.parseError,
          "failed to parse quality \"" ++ c.content ++ "\" for format \"" ++ name ++ "\""⟩
      else jpegChildLoop name rest (intCast32 p.1)
    else jpegChildLoop name rest q

/-- parseFormat.  Note: the wrong-tag check records an error but does
not return (the C code has no `return` in that branch), so parsing
continues. -/
def parseFormat (ctx : PCtx) (node : XmlNode) (cfg : Cfg) : PCtx × Cfg :=
  let ctx1 :=
    if node.name ≠ "format" then
      setError ctx .parseError ("SEVERE: <" ++ node.name ++ "> is not a format tag")
    else ctx
  let nt := extractNameAndTypeAttributes node.attrs
  if nt.1 = none ∨ nt.1 = some "" then
    (setError ctx1 .parseError "mandatory attribute \"name\" not found in <format>", cfg)
  else if nt.2 = none ∨ nt.2 = some "" then
    (setError ctx1 .parseError "mandatory attribute \"type\" not found in <format>", cfg)
  else
    let name := nt.1.getD ""
    if nt.2 = some "PNG" then
      match pngChildLoop name node.children (-1) .default with
      | .error e => (setError ctx1 e.kind e.msg, cfg)
      | .ok r =>
        let format :=
          if r.1 = -1 then geocache_imageio_create_png_format name r.2
          else geocache_imageio_create_png_q_format name r.2 r.1
        (ctx1, geocache_configuration_add_image_format cfg format name)
    else if nt.2 = some "JPEG" then
      match jpegChildLoop name node.children 95 with
      | .error e => (setError ctx1 e.kind e.msg, cfg)
      | .ok q =>
        (ctx1, geocache_configuration_add_image_format cfg
          (geocache_imageio_create_jpeg_format name q) name)
    else
      (setError ctx1 .parseError
        ("unknown format type " ++ nt.2.getD "" ++ " for format \"" ++ name ++ "\""), cfg)

/-- The child scan of parseTileset: recognizes `cache`, `source`, `srs`,
`size`, `extent`, `resolutions`, `metatile`, `expires`, `metabuffer` and
`format`, and silently ignores any other tag. -/
def tsChildLoop (cfg : Cfg) (name : String) : List XmlNode → Tileset → Except Err Tileset
  | [], t => .ok t
  | c :: rest, t =>
    if c.isElement = false then tsChildLoop cfg name rest t
    else if c.name = "cache" then
      match geocache_configuration_get_cache cfg c.content with
      | none => .error ⟨.parseError,
          "tileset \"" ++ name ++ "\" references cache \"" ++ c.content ++ "\", but it is not configured"⟩
      | some ca => tsChildLoop cfg name rest { t with cache := some ca }
    else if c.name = "source" then
      match geocache_configuration_get_source cfg c.content with
      | none => .error ⟨.parseError,
          "tileset \"" ++ name ++ "\" references source \"" ++ c.content ++ "\", but it is not configured"⟩
      | some s => tsChildLoop cfg name rest { t with source := some s }
    else if c.name = "srs" then
      tsChildLoop cfg name rest { t with srs := some c.content }
    else if c.name = "size" then
      match geocache_util_extract_int_list c.content with
      | some [a, b] => tsChildLoop cfg name rest { t with tile_sx := a, tile_sy := b }
      | _ => .error ⟨.parseError, "failed to parse size array " ++ c.content⟩
    else if c.name = "extent" then
      match geocache_util_extract_double_list c.content with
      | some [a, b, d, e] =>
        tsChildLoop cfg name rest { t with extent0 := a, extent1 := b, extent2 := d, extent3 := e }
      | _ => .error ⟨.parseError, "failed to parse extent array " ++ c.content⟩
    else if c.name = "resolutions" then
      match geocache_util_extract_double_list c.content with
      | none => .error ⟨.parseError, "failed to parse resolutions array " ++ c.content⟩
      | some vs =>
        if vs = [] then .error ⟨.parseError, "failed to parse resolutions array " ++ c.content⟩
        else tsChildLoop cfg name rest { t with resolutions := vs, levels := (vs.length : Int) }
    else if c.name = "metatile" then
      match geocache_util_extract_int_list c.content with
      | some [a, b] => tsChildLoop cfg name rest { t with metasize_x := a, metasize_y := b }
      | _ => .error ⟨.parseError, "failed to parse metatile dimension " ++ c.content⟩
    else if c.name = "expires" then
      let p := strtol c.content
      if p.2 ≠ [] then .error ⟨.parseError, "failed to parse expires " ++ c.content⟩
      else tsChildLoop cfg name rest { t with expires := intCast32 p.1 }
    else if c.name = "metabuffer" then
      let p := strtol c.content
      if p.2 ≠ [] then .error ⟨.parseError, "failed to parse metabuffer " ++ c.content⟩
      else tsChildLoop cfg name rest { t with metabuffer := intCast32 p.1 }
    else if c.name = "format" then
      match geocache_configuration_get_image_format cfg c.content with
      | none => .error ⟨.parseError,
          "tileset \"" ++ name ++ "\" references format \"" ++ c.content ++ "\", but it is not configured"⟩
      | some f => tsChildLoop cfg name rest { t with format := some f }
    else tsChildLoop cfg name rest t

/-- The final validation and registration section of parseTileset
("check we have all we want"): cache, source and srs must be set, the
extent must be non-degenerate on both axes, the resolutions list must be
non-empty; then, when no explicit format was given and the metatile is
not exactly 1x1 or the metabuffer is non-zero, the format is backfilled
with the configuration's merge format, and the tileset is registered. -/
def tilesetFinalize (ctx : PCtx) (t : Tileset) (cfg : Cfg) : PCtx × Cfg :=
  if t.cache = none then
    (setError ctx .parseError
      ("tileset \"" ++ t.name ++ "\" has no cache configured. You must add a <cache> tag."), cfg)
  else if t.source = none then
    (setError ctx .parseError
      ("tileset \"" ++ t.name ++ "\" has no source configured. You must add a <source> tag."), cfg)
  else if t.srs = none then
    (setError ctx .parseError
      ("tileset \"" ++ t.name ++ "\" has no srs configured. You must add a <srs> tag."), cfg)
  else if t.extent0 = t.extent2 ∨ t.extent1 = t.extent3 then
    (setError ctx .parseError
      ("tileset \"" ++ t.name ++ "\" has no (or invalid) extent configured You must add/correct a <extent> tag."), cfg)
  else if t.levels = 0 then
    (setError ctx .parseError
      ("tileset \"" ++ t.name ++ "\" has no resolutions configured. You must add a <resolutions> tag."), cfg)
  else
    let t2 :=
      if t.format = none ∧ (t.metasize_x ≠ 1 ∨ t.metasize_y ≠ 1 ∨ t.metabuffer ≠ 0) then
        { t with format := cfg.merge_format }
      else t
    (ctx, geocache_configuration_add_tileset cfg t2 t.name)

/-- parseTileset: tag check, name extraction and duplicate check, child
scan, then final validation and registration. -/
def parseTileset (ctx : PCtx) (node : XmlNode) (cfg : Cfg) : PCtx × Cfg :=
  if node.name ≠ "tileset" then
    (setError ctx .parseError ("SEVERE: <" ++ node.name ++ "> is not a tileset tag"), cfg)
  else
    let nt := extractNameAndTypeAttributes node.attrs
    if nt.1 = none ∨ nt.1 = some "" then
      (setError ctx .parseError "mandatory attribute \"name\" not found in <tileset>", cfg)
    else if (geocache_configuration_get_tileset cfg (nt.1.getD "")).isSome then
      (setError ctx .parseError ("duplicate tileset with name \"" ++ nt.1.getD "" ++ "\""), cfg)
    else
      let name := nt.1.getD ""
      match tsChildLoop cfg name node.children { geocache_tileset_create with name := name } with
      | .error e => (setError ctx e.kind e.msg, cfg)
      | .ok t => tilesetFinalize ctx t cfg

/-- The `services` block handler: each recognized child (`wms`, `tms`)
enables its service unless the child's text content is non-empty and
exactly "false"; other children are ignored.  Service creation
(service.c, not in src/) is modelled from the spec as installing the
service, i.e. setting the corresponding flag. -/
def servicesBlock (kids : List XmlNode) (cfg : Cfg) : Cfg :=
  kids.foldl
    (fun cfg c =>
      if c.isElement = false then cfg
      else if c.name = "wms" then
        if c.content = "" ∨ c.content ≠ "false" then { cfg with services_wms := true } else cfg
      else if c.name = "tms" then
        if c.content = "" ∨ c.content ≠ "false" then { cfg with services_tms := true } else cfg
      else cfg)
    cfg

/-- One top-level dispatch step of geocache_configuration_parse: an
element child of the root is routed by tag to the per-entity parsers or
to the `services`, `merge_format` or `lock_dir` handlers; any other tag
is a hard error naming the tag and the source file.  Non-element nodes
are skipped. -/
def topDispatch (ctx : PCtx) (filename : String) (c : XmlNode) (cfg : Cfg) : PCtx × Cfg :=
  if c.isElement = false then (ctx, cfg)
  else if c.name = "source" then parseSource ctx c cfg
  else if c.name = "cache" then parseCache ctx c cfg
  else if c.name = "format" then parseFormat ctx c cfg
  else if c.name = "tileset" then parseTileset ctx c cfg
  else if c.name = "services" then (ctx, servicesBlock c.children cfg)
  else if c.name = "merge_format" then
    match geocache_configuration_get_image_format cfg c.content with
    | none =>
      (setError ctx .parseError
        ("merge_format tag references format " ++ c.content ++ " but it is not configured"), cfg)
    | some f => (ctx, { cfg with merge_format := some f })
  else if c.name = "lock_dir" then (ctx, { cfg with lockdir := c.content })
  else
    (setError ctx .parseError
      ("failed to parse geocache config file " ++ filename ++ ": unknown tag <" ++ c.name ++ ">"), cfg)

/-- The walk over the root's children in document order.  Each parser
branch is followed by GC_CHECK_ERROR (or returns directly on its own
error), so the first recorded error stops the walk. -/
def walkTopLevel (ctx : PCtx) (filename : String) (kids : List XmlNode) (cfg : Cfg) : PCtx × Cfg :=
  match kids with
  | [] => (ctx, cfg)
  | c :: rest =>
    let r := topDispatch ctx filename c cfg
    if r.1.error.isSome then r else walkTopLevel r.1 filename rest r.2

/-- geocache_configuration_parse.  The document is the already-ingested
tree (`none` models a libxml2 read failure); `lockdirOk` abstracts the
outcome of the lock-directory filesystem probe (apr_dir_make_recursive
plus test-lockfile creation), an external capability check that signals
GEOCACHE_DISK_ERROR on failure.  After an error-free walk the probe runs
first, then the at-least-one-service postcondition. -/
def geocache_configuration_parse (ctx : PCtx) (filename : String) (root? : Option XmlNode)
    (lockdirOk : Bool) (cfg : Cfg) : PCtx × Cfg :=
  match root? with
  | none =>
    (setError ctx .parseError
      ("libxml2 failed to parse file " ++ filename ++ ". Is it valid XML?"), cfg)
  | some root =>
    if root.isElement = true ∧ root.name = "geocache" then
      let r := walkTopLevel ctx filename root.children cfg
      if r.1.error.isSome then r
      else if lockdirOk = false then
        (setError r.1 .diskError ("failed to create lock directory " ++ r.2.lockdir), r.2)
      else if r.2.services_wms = false ∧ r.2.services_tms = false then
        (setError r.1 .parseError
          "no services configured. You must add a <services> tag with <wms/> or <tms/> children", r.2)
      else r
    else
      (setError ctx .parseError
        ("failed to parse geocache config file " ++ filename ++
          ": document does not begin with <geocache> tag. found <" ++ root.name ++ ">"), cfg)

/-- A fresh context with no recorded error. -/
def ctx0 : PCtx := ⟨none⟩

/-- The configuration as it stands when document parsing begins: the
three built-in formats are registered and the defaults are in place. -/
def cfg0 : Cfg := geocache_configuration_create

/-- An attribute with a text value. -/
def attrN (k v : String) : XmlAttr := ⟨k, some v⟩

/-- A leaf element node with text content. -/
def elemN (tag content : String) : XmlNode := .mk true tag content [] []

/-- A `<format name=.. type=..>` element with the given children. -/
def fmtNode (nm ty : String) (kids : List XmlNode) : XmlNode :=
  .mk true "format" "" [attrN "name" nm, attrN "type" ty] kids

/-- A wrong-tag node that otherwise looks like a valid JPEG format
definition with an explicit quality child. -/
def c10FormatNode : XmlNode :=
  .mk true "notformat" "" [attrN "name" "F10", attrN "type" "JPEG"] [elemN "quality" "50"]

/-- C1, counterexample: the built-in format "PNG" is already registered
when document parsing begins, yet a document format with the same name
registers without any duplicate-name error, silently overwriting the
built-in entry.  This refutes the claim for the image-format category. -/
theorem c1_counterexample :
    geocache_configuration_get_image_format cfg0 "PNG"
      = some (geocache_imageio_create_png_format "PNG" .fast) ∧
    (parseFormat ctx0 (fmtNode "PNG" "PNG" []) cfg0).1.error = none ∧
    geocache_configuration_get_image_format (parseFormat ctx0 (fmtNode "PNG" "PNG" []) cfg0).2 "PNG"
      = some (geocache_imageio_create_png_format "PNG" .default) := by
  decide

/-- C2, counterexample: a JPEG format definition with an unrecognized
child tag `bogus` parses without error and the format is registered, so
the schema-strictness claimed for both format types fails for JPEG. -/
theorem c2_counterexample :
    (parseFormat ctx0 (fmtNode "j1" "JPEG" [elemN "bogus" "x"]) cfg0).1.error = none ∧
    geocache_configuration_get_image_format
        (parseFormat ctx0 (fmtNode "j1" "JPEG" [elemN "bogus" "x"]) cfg0).2 "j1"
      = some (geocache_imageio_create_jpeg_format "j1" 95) := by
  decide

/-- C7, counterexample: with a present-but-empty `name` attribute and a
non-empty `type`, the extractor still returns GEOCACHE_SUCCESS and hands
back the empty name: it does not check non-emptiness (the callers do). -/
theorem c7_counterexample :
    extractNTStatus [⟨"name", some ""⟩, ⟨"type", some "disk"⟩] = true ∧
    extractNameAndTypeAttributes [⟨"name", some ""⟩, ⟨"type", some "disk"⟩]
      = (some "", some "disk") := by
  decide

/-- C10: invoked on a node whose tag is not `format`, parseFormat
records the wrong-tag parse error yet continues: it still extracts the
attributes, parses the `quality` child (the registered quality is 50,
not the default 95) and registers the format.  The source, cache and
tileset parsers return immediately on their analogous wrong-tag checks,
leaving the configuration untouched. -/
theorem c10_wrong_tag_continuation :
    (parseFormat ctx0 c10FormatNode cfg0).1.error
      = some ⟨.parseError, "SEVERE: <notformat> is not a format tag"⟩ ∧
    geocache_configuration_get_image_format (parseFormat ctx0 c10FormatNode cfg0).2 "F10"
      = some (geocache_imageio_create_jpeg_format "F10" 50) ∧
    parseSource ctx0 (.mk true "notsource" "" [attrN "name" "S10", attrN "type" "wms"] []) cfg0
      = (⟨some ⟨.parseError, "SEVERE: found tag notsource instead of <source>"⟩⟩, cfg0) ∧
    parseCache ctx0 (.mk true "notcache" "" [attrN "name" "C10", attrN "type" "disk"] []) cfg0
      = (⟨some ⟨.parseError, "SEVERE: <notcache> is not a cache tag"⟩⟩, cfg0) ∧
    parseTileset ctx0 (.mk true "nottileset" "" [attrN "name" "T10"] []) cfg0
      = (⟨some ⟨.parseError, "SEVERE: <nottileset> is not a tileset tag"⟩⟩, cfg0) := by
  decide

theorem hashGet_hashSet_self {α : Type} (h : List (String × α)) (k : String) (v : α) :
    hashGet (hashSet h k v) k = some v := by
  induction h with
  | nil => simp [hashSet, hashGet]
  | cons p rest ih =>
    by_cases hp : p.1 = k
    · simp [hashSet, hashGet, hp]
    · simp [hashSet, hashGet, hp, ih]

/-- A configuration holding one registered cache "c" and one registered
source "s", as left by a document prefix that defined them. -/
def cfgCS : Cfg :=
  geocache_configuration_add_source
    (geocache_configuration_add_cache geocache_configuration_create ⟨"c"⟩ "c")
    ⟨"s", some "EPSG:4326"⟩ "s"

/-- cfgCS with a tileset "t1" also registered. -/
def cfgDup : Cfg :=
  geocache_configuration_add_tileset cfgCS
    { geocache_tileset_create with name := "t1" } "t1"

/-- C1 (amended): with an error-free context, the source, cache and
tileset parsers reject a definition whose name is already registered in
their registry with a duplicate-name error, leaving the configuration
untouched (in particular no field of the second entity is recorded);
the format parser performs no such check and insert-or-overwrites the
formats registry. -/
theorem c1_duplicate_name_policy :
    (∀ (ctx : PCtx) (cfg : Cfg) (n : XmlNode) (nm : String),
      ctx.error = none → n.name = "source" →
      (extractNameAndTypeAttributes n.attrs).1 = some nm → nm ≠ "" →
      (geocache_configuration_get_source cfg nm).isSome = true →
      parseSource ctx n cfg
        = (⟨some ⟨.parseError, "duplicate source with name \"" ++ nm ++ "\""⟩⟩, cfg)) ∧
    (∀ (ctx : PCtx) (cfg : Cfg) (n : XmlNode) (nm : String),
      ctx.error = none → n.name = "cache" →
      (extractNameAndTypeAttributes n.attrs).1 = some nm → nm ≠ "" →
      (geocache_configuration_get_cache cfg nm).isSome = true →
      parseCache ctx n cfg
        = (⟨some ⟨.parseError, "duplicate cache with name \"" ++ nm ++ "\""⟩⟩, cfg)) ∧
    (∀ (ctx : PCtx) (cfg : Cfg) (n : XmlNode) (nm : String),
      ctx.error = none → n.name = "tileset" →
      (extractNameAndTypeAttributes n.attrs).1 = some nm → nm ≠ "" →
      (geocache_configuration_get_tileset cfg nm).isSome = true →
      parseTileset ctx n cfg
        = (⟨some ⟨.parseError, "duplicate tileset with name \"" ++ nm ++ "\""⟩⟩, cfg)) ∧
    (∀ (ctx : PCtx) (cfg : Cfg) (n : XmlNode) (nm : String),
      ctx.error = none → n.name = "format" →
      extractNameAndTypeAttributes n.attrs = (some nm, some "JPEG") → nm ≠ "" →
      n.children = [] →
      parseFormat ctx n cfg
        = (ctx, geocache_configuration_add_image_format cfg
            (geocache_imageio_create_jpeg_format nm 95) nm)) := by
  refine ⟨?_, ?_, ?_, ?_⟩
  · intro ctx cfg n nm h1 h2 h3 h4 h5
    simp [parseSource, setError, h1, h2, h3, h4, h5]
  · intro ctx cfg n nm h1 h2 h3 h4 h5
    simp [parseCache, setError, h1, h2, h3, h4, h5]
  · intro ctx cfg n nm h1 h2 h3 h4 h5
    simp [parseTileset, setError, h1, h2, h3, h4, h5]
  · intro ctx cfg n nm h1 h2 h3 h5 h4
    simp [parseFormat, setError, jpegChildLoop, h1, h2, h3, h4, h5]

/-- C1 amended, witness: in a configuration already holding source "s",
cache "c", tileset "t1" and the built-in format "JPEG", a second
definition of each name behaves as stated. -/
theorem c1_duplicate_name_policy_witness :
    parseSource ctx0 (.mk true "source" "" [attrN "name" "s", attrN "type" "wms"] []) cfgDup
      = (⟨some ⟨.parseError, "duplicate source with name \"s\""⟩⟩, cfgDup) ∧
    parseCache ctx0 (.mk true "cache" "" [attrN "name" "c", attrN "type" "disk"] []) cfgDup
      = (⟨some ⟨.parseError, "duplicate cache with name \"c\""⟩⟩, cfgDup) ∧
    parseTileset ctx0 (.mk true "tileset" "" [attrN "name" "t1"] []) cfgDup
      = (⟨some ⟨.parseError, "duplicate tileset with name \"t1\""⟩⟩, cfgDup) ∧
    parseFormat ctx0 (fmtNode "JPEG" "JPEG" []) cfgDup
      = (ctx0, geocache_configuration_add_image_format cfgDup
          (geocache_imageio_create_jpeg_format "JPEG" 95) "JPEG") :=
  ⟨c1_duplicate_name_policy.1 ctx0 cfgDup _ "s" rfl rfl (by decide) (by decide) (by decide),
   c1_duplicate_name_policy.2.1 ctx0 cfgDup _ "c" rfl rfl (by decide) (by decide) (by decide),
   c1_duplicate_name_policy.2.2.1 ctx0 cfgDup _ "t1" rfl rfl (by decide) (by decide) (by decide),
   c1_duplicate_name_policy.2.2.2 ctx0 cfgDup _ "JPEG" rfl rfl (by decide) (by decide) rfl⟩

/-- C2 (amended): for a PNG format definition, any element child tag
other than `compression` and `colors` is a hard error naming the
offending tag and the format's name, and the format is not registered;
for a JPEG format definition, any element child tag other than
`quality` is silently ignored and the format registers with the default
quality. -/
theorem c2_schema_strictness :
    (∀ (tag cont nm : String), nm ≠ "" → tag ≠ "compression" → tag ≠ "colors" →
      parseFormat ctx0 (fmtNode nm "PNG" [elemN tag cont]) cfg0
        = (⟨some ⟨.parseError, "unknown tag " ++ tag ++ " for format \"" ++ nm ++ "\""⟩⟩, cfg0)) ∧
    (∀ (tag cont nm : String), nm ≠ "" → tag ≠ "quality" →
      parseFormat ctx0 (fmtNode nm "JPEG" [elemN tag cont]) cfg0
        = (ctx0, geocache_configuration_add_image_format cfg0
            (geocache_imageio_create_jpeg_format nm 95) nm)) := by
  constructor
  · intro tag cont nm h1 h2 h3
    simp [parseFormat, fmtNode, attrN, elemN, pngChildLoop, extractNameAndTypeAttributes,
      extractNTAux, XmlNode.attrs, XmlNode.children, XmlNode.name, XmlNode.isElement,
      XmlNode.content, setError, ctx0, h1, h2, h3]
  · intro tag cont nm h1 h2
    simp [parseFormat, fmtNode, attrN, elemN, jpegChildLoop, extractNameAndTypeAttributes,
      extractNTAux, XmlNode.attrs, XmlNode.children, XmlNode.name, XmlNode.isElement,
      XmlNode.content, setError, ctx0, h1, h2]

/-- C2 amended, witness: the tag `bogus` is rejected under a PNG format
but ignored under a JPEG format. -/
theorem c2_schema_strictness_witness :
    parseFormat ctx0 (fmtNode "p1" "PNG" [elemN "bogus" "x"]) cfg0
      = (⟨some ⟨.parseError, "unknown tag bogus for format \"p1\""⟩⟩, cfg0) ∧
    parseFormat ctx0 (fmtNode "j2" "JPEG" [elemN "bogus" "x"]) cfg0
      = (ctx0, geocache_configuration_add_image_format cfg0
          (geocache_imageio_create_jpeg_format "j2" 95) "j2") :=
  ⟨c2_schema_strictness.1 "bogus" "x" "p1" (by decide) (by decide) (by decide),
   c2_schema_strictness.2 "bogus" "x" "j2" (by decide) (by decide)⟩

/-- Follows the spec's words for the attribute extractor: the value
returned for a key is the last value of an attribute of that name among
the attributes the C loop walks, i.e. the prefix before the first
attribute without children. -/
def specAttrLookup (attrs : List XmlAttr) (k : String) : Option String :=
  (attrs.takeWhile (fun a => a.children.isSome)).foldl
    (fun acc a => if a.name = k then a.children else acc) none

theorem extractNTAux_eq (attrs : List XmlAttr) :
    ∀ n t, extractNTAux attrs n t =
      ((attrs.takeWhile (fun a => a.children.isSome)).foldl
          (fun acc a => if a.name = "name" then a.children else acc) n,
       (attrs.takeWhile (fun a => a.children.isSome)).foldl
          (fun acc a => if a.name = "type" then a.children else acc) t) := by
  induction attrs with
  | nil => intro n t; simp [extractNTAux]
  | cons a rest ih =>
    intro n t
    cases hc : a.children with
    | none => simp [extractNTAux, hc, List.takeWhile_cons]
    | some v =>
      simp only [extractNTAux, hc, List.takeWhile_cons, Option.isSome_some, List.foldl_cons]
      rw [ih]
      simp [hc]

/-- C7 (amended): the extractor returns, for each of `name` and `type`,
the value of the last attribute of that name in the walked prefix of the
attribute list (stopping at the first value-less attribute), and its
status is GEOCACHE_SUCCESS exactly when both are present — values may be
empty, since non-emptiness is checked by the callers; when the status is
failure the absent one is returned as null, which tells the caller which
of the two is missing. -/
theorem c7_extractor_refinement (attrs : List XmlAttr) :
    extractNameAndTypeAttributes attrs
      = (specAttrLookup attrs "name", specAttrLookup attrs "type") ∧
    (extractNTStatus attrs = true ↔
      (specAttrLookup attrs "name").isSome = true ∧ (specAttrLookup attrs "type").isSome = true) := by
  have h := extractNTAux_eq attrs none none
  constructor
  · exact h
  · simp [extractNTStatus, extractNameAndTypeAttributes, h, specAttrLookup]

/-- C7 amended, witness. -/
theorem c7_extractor_refinement_witness :
    extractNameAndTypeAttributes [⟨"name", some "n"⟩, ⟨"other", none⟩, ⟨"type", some "x"⟩]
      = (specAttrLookup [⟨"name", some "n"⟩, ⟨"other", none⟩, ⟨"type", some "x"⟩] "name",
         specAttrLookup [⟨"name", some "n"⟩, ⟨"other", none⟩, ⟨"type", some "x"⟩] "type") :=
  (c7_extractor_refinement [⟨"name", some "n"⟩, ⟨"other", none⟩, ⟨"type", some "x"⟩]).1

/-- C3: for every tileset state that passes the cache, source, srs,
extent and resolutions validations with no explicit format, the
registered tileset's format is the configuration's current merge format
when the metatile is not exactly (1,1) or the metabuffer is non-zero,
and stays unset otherwise. -/
theorem c3_format_backfill (ctx : PCtx) (t : Tileset) (cfg : Cfg)
    (hc : t.cache ≠ none) (hs : t.source ≠ none) (hr : t.srs ≠ none)
    (he1 : t.extent0 ≠ t.extent2) (he2 : t.extent1 ≠ t.extent3)
    (hl : t.levels ≠ 0) (hf : t.format = none) :
    tilesetFinalize ctx t cfg
      = (ctx, geocache_configuration_add_tileset cfg
          (if t.metasize_x ≠ 1 ∨ t.metasize_y ≠ 1 ∨ t.metabuffer ≠ 0 then
            { t with format := cfg.merge_format }
          else t) t.name) := by
  simp [tilesetFinalize, hc, hs, hr, he1, he2, hl, hf]

/-- A tileset state passing all validations, with metatile (2,2). -/
def tsMeta22 : Tileset :=
  { geocache_tileset_create with
    name := "w3", cache := some ⟨"c"⟩, source := some ⟨"s", none⟩, srs := some "EPSG:4326",
    extent2 := 1, extent3 := 1, resolutions := [1], levels := 1,
    metasize_x := 2, metasize_y := 2 }

/-- The same tileset state with metatile (1,1) and metabuffer 0. -/
def tsMeta11 : Tileset :=
  { tsMeta22 with name := "w4", metasize_x := 1, metasize_y := 1 }

/-- C3, witness: metatile (2,2) backfills the merge format; metatile
(1,1) with metabuffer 0 leaves the format unset. -/
theorem c3_format_backfill_witness :
    tilesetFinalize ctx0 tsMeta22 cfg0
      = (ctx0, geocache_configuration_add_tileset cfg0
          { tsMeta22 with format := cfg0.merge_format } tsMeta22.name) ∧
    tilesetFinalize ctx0 tsMeta11 cfg0
      = (ctx0, geocache_configuration_add_tileset cfg0 tsMeta11 tsMeta11.name) :=
  ⟨(c3_format_backfill ctx0 tsMeta22 cfg0 (by decide) (by decide) (by decide)
      (by decide) (by decide) (by decide) rfl).trans (by decide),
   (c3_format_backfill ctx0 tsMeta11 cfg0 (by decide) (by decide) (by decide)
      (by decide) (by decide) (by decide) rfl).trans (by decide)⟩

/-- C5: for every tileset state whose extent is degenerate on either
axis, the final validation fails with a parse error and the
configuration is returned unchanged (the tileset is not registered),
whatever the other fields hold. -/
theorem c5_degenerate_extent (ctx : PCtx) (t : Tileset) (cfg : Cfg)
    (hctx : ctx.error = none) (hd : t.extent0 = t.extent2 ∨ t.extent1 = t.extent3) :
    (tilesetFinalize ctx t cfg).2 = cfg ∧
    ((tilesetFinalize ctx t cfg).1.error.map Err.kind) = some .parseError := by
  unfold tilesetFinalize
  split_ifs with h1 h2 h3 <;> simp [setError, hctx]

/-- C5, witness: the freshly created tileset state (all-zero extent) is
rejected and nothing is registered. -/
theorem c5_degenerate_extent_witness :
    (tilesetFinalize ctx0 { geocache_tileset_create with name := "d" } cfg0).2 = cfg0 ∧
    ((tilesetFinalize ctx0 { geocache_tileset_create with name := "d" } cfg0).1.error.map Err.kind)
      = some .parseError :=
  c5_degenerate_extent ctx0 { geocache_tileset_create with name := "d" } cfg0 rfl (Or.inl rfl)

/-- The tileset node family for the resolutions claim: a valid cache,
source, srs and extent, plus a `resolutions` child with text `s`. -/
def tsResNode (s : String) : XmlNode :=
  .mk true "tileset" "" [attrN "name" "t1"]
    [elemN "cache" "c", elemN "source" "s", elemN "srs" "EPSG:4326",
     elemN "extent" "-180 -90 180 90", elemN "resolutions" s]

/-- C4: with every other validation passing, a `resolutions` text that
yields no numbers (unparseable or empty) always fails and registers
nothing, while a text parsing to a non-empty list of N numbers yields a
registered tileset with `levels = N` and the resolutions stored in
document order. -/
theorem c4_resolutions_levels (s : String) :
    ((geocache_util_extract_double_list s = none ∨ geocache_util_extract_double_list s = some []) →
      ((parseTileset ctx0 (tsResNode s) cfgCS).1.error.isSome = true ∧
        (parseTileset ctx0 (tsResNode s) cfgCS).2 = cfgCS)) ∧
    (∀ vs : List ℚ, geocache_util_extract_double_list s = some vs → vs ≠ [] →
      ((parseTileset ctx0 (tsResNode s) cfgCS).1.error = none ∧
        ((geocache_configuration_get_tileset (parseTileset ctx0 (tsResNode s) cfgCS).2 "t1").map
            (fun t => (t.levels, t.resolutions)))
          = some ((vs.length : Int), vs))) := by
  have hcc : geocache_configuration_get_cache cfgCS "c" = some ⟨"c"⟩ := by decide
  have hss : geocache_configuration_get_source cfgCS "s" = some ⟨"s", some "EPSG:4326"⟩ := by decide
  have hee : geocache_util_extract_double_list "-180 -90 180 90"
      = some [(-180 : ℚ), (-90 : ℚ), (180 : ℚ), (90 : ℚ)] := by decide
  have hdup : hashGet cfgCS.tilesets "t1" = none := by decide
  have hdupG : geocache_configuration_get_tileset cfgCS "t1" = none := by decide
  have hext : ¬(((-180 : ℚ) = 180) ∨ ((-90 : ℚ) = 90)) := by norm_num
  constructor
  · rintro (h | h) <;>
      simp [parseTileset, tsResNode, attrN, elemN, extractNameAndTypeAttributes, extractNTAux,
        XmlNode.attrs, XmlNode.name, XmlNode.children, XmlNode.isElement, XmlNode.content,
        tsChildLoop, hcc, hss, hee, hdup, hdupG, h, setError, ctx0]
  · intro vs hvs hne
    have hlvl : ¬((vs.length : Int) = 0) := by
      simpa [Int.natCast_eq_zero, List.length_eq_zero] using hne
    simp [parseTileset, tsResNode, attrN, elemN, extractNameAndTypeAttributes, extractNTAux,
      XmlNode.attrs, XmlNode.name, XmlNode.children, XmlNode.isElement, XmlNode.content,
      tsChildLoop, hcc, hss, hee, hdup, hdupG, hvs, hne, setError, ctx0,
      tilesetFinalize, geocache_tileset_create, hext, hlvl,
      geocache_configuration_get_tileset, geocache_configuration_add_tileset,
      hashGet_hashSet_self]

/-- C4, witness: "1 2 4 8" yields a registered tileset with four levels
and the resolutions in document order. -/
theorem c4_resolutions_levels_witness :
    (parseTileset ctx0 (tsResNode "1 2 4 8") cfgCS).1.error = none ∧
    ((geocache_configuration_get_tileset (parseTileset ctx0 (tsResNode "1 2 4 8") cfgCS).2 "t1").map
        (fun t => (t.levels, t.resolutions)))
      = some ((([(1 : ℚ), 2, 4, 8]).length : Int), [(1 : ℚ), 2, 4, 8]) :=
  (c4_resolutions_levels "1 2 4 8").2 [1, 2, 4, 8] (by decide) (by decide)

theorem strtol_range_accept (s : String) (lo hi : Int) (hlo : 1 ≤ lo) :
    (¬((strtol s).2 ≠ [] ∨ intCast32 (strtol s).1 < lo ∨ intCast32 (strtol s).1 > hi)) ↔
      (∃ n, specFullyParsedInt s = some n ∧
        lo ≤ intCast32 (clampLong n) ∧ intCast32 (clampLong n) ≤ hi) := by
  have h0 : intCast32 0 = 0 := by decide
  by_cases hds : (signSplit (s.data.dropWhile isSpaceC)).2.takeWhile Char.isDigit = []
  · simp only [strtol, strtolChars, specFullyParsedInt, hds, if_pos, ite_true, ne_eq,
      not_or, not_lt, true_or, if_true, h0]
    constructor
    · rintro ⟨h1, h2, h3⟩; omega
    · rintro ⟨n, hn, _⟩; simp at hn
  · simp only [strtol, strtolChars, specFullyParsedInt, hds, if_neg, ite_false, ne_eq,
      not_or, not_lt, false_or, if_false]
    by_cases hrest : (signSplit (s.data.dropWhile isSpaceC)).2.dropWhile Char.isDigit = [] <;>
      simp [hds, hrest]

/-- C6, counterexample: the colors text "4294967396" (2^32 + 100) fully
parses as the integer 4294967396, far outside 2..256, yet the PNG
parser accepts it: strtol returns the long 4294967396 and the `(int)`
cast of configuration.c:187 wraps it to 100, which passes the range
check, so the quantized format registers with 100 colors. -/
theorem c6_counterexample :
    (parseFormat ctx0 (fmtNode "f" "PNG" [elemN "colors" "4294967396"]) cfg0).1.error = none ∧
    geocache_configuration_get_image_format
        (parseFormat ctx0 (fmtNode "f" "PNG" [elemN "colors" "4294967396"]) cfg0).2 "f"
      = some (geocache_imageio_create_png_q_format "f" .default 100) ∧
    specFullyParsedInt "4294967396" = some 4294967396 ∧
    ¬((4294967396 : Int) ≤ 256) := by
  decide

/-- C6 (amended): the PNG parser accepts a `colors` text exactly when it
fully parses as an integer whose value, clamped to the long range by
strtol and truncated to a 32-bit int by the `(int)` cast, lies between 2
and 256 inclusive; likewise the JPEG parser accepts a `quality` text
exactly when the clamped-and-truncated value lies between 1 and 100
inclusive (so 2/256 and 1/100 are accepted and 1, 257, 0, 101 and
trailing-garbage texts are rejected, but an out-of-range integer whose
int truncation lands in range is accepted). -/
theorem c6_colors_quality_wrapped (v : String) :
    (((parseFormat ctx0 (fmtNode "f" "PNG" [elemN "colors" v]) cfg0).1.error = none) ↔
      (∃ n, specFullyParsedInt v = some n ∧
        2 ≤ intCast32 (clampLong n) ∧ intCast32 (clampLong n) ≤ 256)) ∧
    (((parseFormat ctx0 (fmtNode "f" "JPEG" [elemN "quality" v]) cfg0).1.error = none) ↔
      (∃ n, specFullyParsedInt v = some n ∧
        1 ≤ intCast32 (clampLong n) ∧ intCast32 (clampLong n) ≤ 100)) := by
  constructor
  · rw [← strtol_range_accept v 2 256 (by norm_num)]
    by_cases hc : (strtol v).2 ≠ [] ∨ intCast32 (strtol v).1 < 2 ∨ intCast32 (strtol v).1 > 256 <;>
      simp [parseFormat, fmtNode, attrN, elemN, pngChildLoop, extractNameAndTypeAttributes,
        extractNTAux, XmlNode.attrs, XmlNode.children, XmlNode.name, XmlNode.isElement,
        XmlNode.content, setError, ctx0, hc]
  · rw [← strtol_range_accept v 1 100 (by norm_num)]
    by_cases hc : (strtol v).2 ≠ [] ∨ intCast32 (strtol v).1 < 1 ∨ intCast32 (strtol v).1 > 100 <;>
      simp [parseFormat, fmtNode, attrN, elemN, jpegChildLoop, extractNameAndTypeAttributes,
        extractNTAux, XmlNode.attrs, XmlNode.children, XmlNode.name, XmlNode.isElement,
        XmlNode.content, setError, ctx0, hc]

/-- C6 amended, witness: the boundary value 256 is accepted for colors
and 100 for quality. -/
theorem c6_colors_quality_wrapped_witness :
    ((parseFormat ctx0 (fmtNode "f" "PNG" [elemN "colors" "256"]) cfg0).1.error = none) ∧
    ((parseFormat ctx0 (fmtNode "f" "JPEG" [elemN "quality" "100"]) cfg0).1.error = none) :=
  ⟨(c6_colors_quality_wrapped "256").1.mpr ⟨256, by decide, by decide, by decide⟩,
   (c6_colors_quality_wrapped "100").2.mpr ⟨100, by decide, by decide, by decide⟩⟩

/-- The single-service document family for the services claim. -/
def svcDoc (v : String) : XmlNode :=
  .mk true "geocache" "" [] [.mk true "services" "" [] [elemN "wms" v]]

/-- C8: a recognized child of the `services` block enables its service
exactly when its text is not "false" (absent text is the empty string,
which enables it); and when the walk ends with zero services enabled
and the lock-directory probe passes, parsing fails with the
"no services configured" parse error. -/
theorem c8_services_enablement (v : String) :
    ((servicesBlock [elemN "wms" v] cfg0).services_wms = true ↔ v ≠ "false") ∧
    ((servicesBlock [elemN "tms" v] cfg0).services_tms = true ↔ v ≠ "false") ∧
    (v = "false" →
      (geocache_configuration_parse ctx0 "geocache.xml" (some (svcDoc v)) true cfg0).1.error
        = some ⟨.parseError,
            "no services configured. You must add a <services> tag with <wms/> or <tms/> children"⟩) := by
  refine ⟨?_, ?_, ?_⟩
  · by_cases hv : v = "false" <;>
      simp [servicesBlock, elemN, XmlNode.isElement, XmlNode.name, XmlNode.content, cfg0,
        geocache_configuration_create, geocache_configuration_add_image_format,
        geocache_configuration_get_image_format, hv]
  · by_cases hv : v = "false" <;>
      simp [servicesBlock, elemN, XmlNode.isElement, XmlNode.name, XmlNode.content, cfg0,
        geocache_configuration_create, geocache_configuration_add_image_format,
        geocache_configuration_get_image_format, hv]
  · intro hv
    subst hv
    decide

/-- C8, witness: a `services` block whose only entry is `wms` with text
"false" enables nothing and parsing fails with the no-services error. -/
theorem c8_services_enablement_witness :
    (geocache_configuration_parse ctx0 "geocache.xml" (some (svcDoc "false")) true cfg0).1.error
      = some ⟨.parseError,
          "no services configured. You must add a <services> tag with <wms/> or <tms/> children"⟩ :=
  (c8_services_enablement "false").2.2 rfl

/-- C9: (i) an error in a top-level dispatch stops the walk at that
child; (ii) a walk that recorded an error is the whole result of
parsing, for either outcome of the lock-directory probe, so both
postconditions are skipped; (iii) after an error-free walk a failing
lock-directory probe yields a disk error (not a parse error), whatever
the services state, so the probe runs strictly before the service
check; (iv) an unrecognized top-level tag is a hard error naming the
tag and the source file. -/
theorem c9_failfast_ordering :
    (∀ (ctx : PCtx) (fn : String) (c : XmlNode) (rest : List XmlNode) (cfg : Cfg),
      (topDispatch ctx fn c cfg).1.error.isSome = true →
      walkTopLevel ctx fn (c :: rest) cfg = topDispatch ctx fn c cfg) ∧
    (∀ (ctx : PCtx) (fn : String) (kids : List XmlNode) (cfg : Cfg) (b : Bool),
      (walkTopLevel ctx fn kids cfg).1.error.isSome = true →
      geocache_configuration_parse ctx fn (some (.mk true "geocache" "" [] kids)) b cfg
        = walkTopLevel ctx fn kids cfg) ∧
    (∀ (ctx : PCtx) (fn : String) (kids : List XmlNode) (cfg : Cfg),
      (walkTopLevel ctx fn kids cfg).1.error = none →
      ((geocache_configuration_parse ctx fn (some (.mk true "geocache" "" [] kids)) false cfg).1.error.map
          Err.kind) = some .diskError) ∧
    (∀ (ctx : PCtx) (fn : String) (c : XmlNode) (cfg : Cfg),
      ctx.error = none → c.isElement = true →
      c.name ≠ "source" → c.name ≠ "cache" → c.name ≠ "format" → c.name ≠ "tileset" →
      c.name ≠ "services" → c.name ≠ "merge_format" → c.name ≠ "lock_dir" →
      (topDispatch ctx fn c cfg).1.error
        = some ⟨.parseError,
            "failed to parse geocache config file " ++ fn ++ ": unknown tag <" ++ c.name ++ ">"⟩) := by
  refine ⟨?_, ?_, ?_, ?_⟩
  · intro ctx fn c rest cfg h
    simp [walkTopLevel, h]
  · intro ctx fn kids cfg b h
    simp [geocache_configuration_parse, XmlNode.isElement, XmlNode.name, XmlNode.children, h]
  · intro ctx fn kids cfg h
    simp [geocache_configuration_parse, XmlNode.isElement, XmlNode.name, XmlNode.children, h,
      setError]
  · intro ctx fn c cfg hctx he h1 h2 h3 h4 h5 h6 h7
    simp [topDispatch, setError, hctx, he, h1, h2, h3, h4, h5, h6, h7]

/-- C9, witness: one unknown top-level tag produces the named error,
stops the walk before a following child, skips both postconditions, and
an error-free walk with a failing probe reports a disk error. -/
theorem c9_failfast_ordering_witness :
    walkTopLevel ctx0 "f.xml" [elemN "bogus" "", elemN "alsobad" ""] cfg0
      = topDispatch ctx0 "f.xml" (elemN "bogus" "") cfg0 ∧
    geocache_configuration_parse ctx0 "f.xml"
        (some (.mk true "geocache" "" [] [elemN "bogus" ""])) true cfg0
      = walkTopLevel ctx0 "f.xml" [elemN "bogus" ""] cfg0 ∧
    ((geocache_configuration_parse ctx0 "f.xml" (some (.mk true "geocache" "" [] [])) false cfg0).1.error.map
        Err.kind) = some .diskError ∧
    (topDispatch ctx0 "f.xml" (elemN "bogus" "") cfg0).1.error
      = some ⟨.parseError, "failed to parse geocache config file f.xml: unknown tag <bogus>"⟩ :=
  ⟨c9_failfast_ordering.1 ctx0 "f.xml" (elemN "bogus" "") [elemN "alsobad" ""] cfg0 (by decide),
   c9_failfast_ordering.2.1 ctx0 "f.xml" [elemN "bogus" ""] cfg0 true (by decide),
   c9_failfast_ordering.2.2.1 ctx0 "f.xml" [] cfg0 rfl,
   c9_failfast_ordering.2.2.2 ctx0 "f.xml" (elemN "bogus" "") cfg0 rfl rfl (by decide) (by decide)
     (by decide) (by decide) (by decide) (by decide) (by decide)⟩
